import Mathlib

/-!
Shallow embedding of the Petstore MCP server (src/main.py) and verification
of its specification claims.

The program is a stateless protocol adapter: twenty tool procedures, each of
which builds one HTTP request, hands it to the shared helper
`fetch_from_petstore`, and returns the normalized result.  We model the
remote HTTP service as a `World`: a function from the issued request to its
outcome (transport error, timeout, or a status/body response).  Each
procedure becomes a pure Lean function from its arguments and the world to
a pair of (Python-level result, observable effects), where the result is
`Except PyErr (Option Json)` — `Except.error` models an uncaught Python
exception propagating out of the procedure, `Except.ok none` models a
`None` return — and the effects record the HTTP requests issued and the
diagnostic lines printed.
-/

/-- JSON values, as produced by the standard-library JSON decoder
(`response.json()` in the source). -/
inductive Json where
  | null : Json
  | bool (b : Bool) : Json
  | num (n : Int) : Json
  | str (s : String) : Json
  | arr (elems : List Json) : Json
  | obj (fields : List (String × Json)) : Json

/-- The body of an HTTP response.  `Body.json j` is a body whose text is
valid JSON decoding to `j`; `Body.text s` is a body whose raw text `s` is
not valid JSON (for example the bare token `abc123`), so that
`json.loads` — and hence `response.json()` — raises `JSONDecodeError` on
it. -/
inductive Body where
  | json (j : Json) : Body
  | text (s : String) : Body

/-- The outcome of one HTTP round trip, as observed by the client.
`transportError` covers connection-level failures (`httpx.TransportError`,
a subclass of `httpx.HTTPError`); `timeout` covers the request exceeding
the configured timeout (`httpx.TimeoutException`, also a subclass of
`httpx.HTTPError`); `response` is a completed round trip with a status
code and a body. -/
inductive HttpOutcome where
  | transportError (detail : String) : HttpOutcome
  | timeout (detail : String) : HttpOutcome
  | response (status : Nat) (body : Body) : HttpOutcome

/-- An outbound HTTP request exactly as `client.request` receives it in
`fetch_from_petstore` (src/main.py line 19): method, full URL, query
parameters, optional JSON body, headers, and the per-request timeout.
The source passes `timeout=30.0`; we record the whole number 30. -/
structure Request where
  method : String
  url : String
  params : List (String × String)
  jsonBody : Option Json
  headers : List (String × String)
  timeout : Nat

/-- The remote service: one outcome per issued request. -/
def World : Type := Request → HttpOutcome

/-- Uncaught Python exceptions that can escape a tool procedure. -/
inductive PyErr where
  | typeError (msg : String) : PyErr
  | jsonDecodeError (msg : String) : PyErr

/-- Observable side effects of one tool invocation: the HTTP requests
actually issued, and the diagnostic lines printed to stdout. -/
structure Effects where
  requests : List Request
  logs : List String

/-- src/main.py line 9. -/
def PETSTORE_API_BASE : String := "https://petstore3.swagger.io/api/v3"

/-- src/main.py line 10. -/
def USER_AGENT : String := "petstore-mcp-agent/1.0"

/-- The default headers of src/main.py line 16. -/
def defaultHeaders : List (String × String) :=
  [("User-Agent", USER_AGENT), ("Content-Type", "application/json")]

/-- src/main.py line 16: `headers = headers or {...}`.  Python `or` takes
the right operand whenever the left is falsy, and both `None` and the
empty dict are falsy, so the defaults are substituted when the caller
passed no headers mapping or an empty one. -/
def effectiveHeaders : Option (List (String × String)) → List (String × String)
  | none => defaultHeaders
  | some [] => defaultHeaders
  | some (h :: t) => h :: t

/-- The request `fetch_from_petstore` builds from its arguments
(src/main.py lines 15, 16 and 19): URL = base ++ path, query parameters as
given (`params=None` sends none), JSON body as given, headers after the
defaulting of line 16, timeout 30. -/
def builtRequest (method path : String) (params : Option (List (String × String)))
    (json : Option Json) (headers : Option (List (String × String))) : Request :=
  ⟨method, PETSTORE_API_BASE ++ path, params.getD [], json, effectiveHeaders headers, 30⟩

/-- The rendering of the `httpx.HTTPStatusError` raised by
`response.raise_for_status()` for a non-2xx status (src/main.py line 20). -/
def statusErrorMsg (status : Nat) (url : String) : String :=
  "status error " ++ toString status ++ " for url " ++ url

/-- The try/except body of `fetch_from_petstore` (src/main.py lines 18-26)
after the round trip's outcome is known: transport errors and timeouts are
`httpx.HTTPError`s, caught and turned into `None` plus a printed
diagnostic; `raise_for_status()` raises `httpx.HTTPStatusError` on a
non-2xx status, likewise caught; a 204 returns `None`; otherwise
`response.json()` returns the decoded body, or raises `JSONDecodeError` —
which is not an `httpx.HTTPError` and therefore propagates uncaught.
Returns the Python-level result and the printed diagnostic lines. -/
def fetchStep (req : Request) : HttpOutcome → Except PyErr (Option Json) × List String
  | .transportError detail => (.ok none, ["HTTP request failed: " ++ detail])
  | .timeout detail => (.ok none, ["HTTP request failed: " ++ detail])
  | .response status body =>
    if status < 200 ∨ 300 ≤ status then
      (.ok none, ["HTTP request failed: " ++ statusErrorMsg status req.url])
    else if status = 204 then
      (.ok none, [])
    else
      match body with
      | .json j => (.ok (some j), [])
      | .text s => (.error (.jsonDecodeError ("Expecting value: " ++ s)), [])

/-- src/main.py lines 13-26: the shared HTTP helper.  Builds one request,
issues it against the world, and normalizes the outcome via `fetchStep`:
the result is the Python-level return (or uncaught exception), the effects
record the single issued request and the printed diagnostics. -/
def fetch_from_petstore (method path : String) (params : Option (List (String × String)))
    (json : Option Json) (headers : Option (List (String × String))) (w : World) :
    Except PyErr (Option Json) × Effects :=
  ((fetchStep (builtRequest method path params json headers)
      (w (builtRequest method path params json headers))).1,
   ⟨[builtRequest method path params json headers],
    (fetchStep (builtRequest method path params json headers)
      (w (builtRequest method path params json headers))).2⟩)

/-- Models `await fetch_from_petstore(...); return None`: the helper's
result value is discarded and `None` returned, but an uncaught exception
from the helper still propagates. -/
def returnNone (r : Except PyErr (Option Json) × Effects) :
    Except PyErr (Option Json) × Effects :=
  (r.1.map (fun _ => none), r.2)

/-- Python truthiness of an optional string: `None` and `""` are falsy. -/
def truthyStr : Option String → Bool
  | none => false
  | some s => !(s = "")

/-- src/main.py lines 29-34. -/
def add_pet (body : Json) (w : World) : Except PyErr (Option Json) × Effects :=
  fetch_from_petstore "POST" "/pet" none (some body) none w

/-- src/main.py lines 37-42. -/
def update_pet (body : Json) (w : World) : Except PyErr (Option Json) × Effects :=
  fetch_from_petstore "PUT" "/pet" none (some body) none w

/-- src/main.py lines 45-51: `params = {"status": ",".join(status)}`. -/
def find_pets_by_status (status : List String) (w : World) :
    Except PyErr (Option Json) × Effects :=
  fetch_from_petstore "GET" "/pet/findByStatus"
    (some [("status", String.intercalate "," status)]) none none w

/-- src/main.py lines 54-60: `params = {"tags": ",".join(tags)}`. -/
def find_pets_by_tags (tags : List String) (w : World) :
    Except PyErr (Option Json) × Effects :=
  fetch_from_petstore "GET" "/pet/findByTags"
    (some [("tags", String.intercalate "," tags)]) none none w

/-- src/main.py lines 63-68. -/
def get_pet_by_id (pet_id : Int) (w : World) : Except PyErr (Option Json) × Effects :=
  fetch_from_petstore "GET" ("/pet/" ++ toString pet_id) none none none w

/-- The dict comprehension of src/main.py line 75: keeps exactly the
entries among `name`, `status` whose value `is not None` (so an empty
string is kept), in that insertion order. -/
def formData (name status : Option String) : List (String × String) :=
  (match name with | some v => [("name", v)] | none => [])
    ++ (match status with | some v => [("status", v)] | none => [])

/-- src/main.py lines 71-77. -/
def update_pet_with_form (pet_id : Int) (name status : Option String) (w : World) :
    Except PyErr (Option Json) × Effects :=
  returnNone (fetch_from_petstore "POST" ("/pet/" ++ toString pet_id)
    (some (formData name status)) none none w)

/-- src/main.py lines 80-86: `headers = {'api_key': api_key} if api_key
else {}` — the header is attached only when `api_key` is truthy, i.e.
neither `None` nor the empty string.  The (possibly empty) dict is then
passed to the helper, whose line-16 defaulting replaces an empty dict by
the default headers. -/
def delete_pet (pet_id : Int) (api_key : Option String) (w : World) :
    Except PyErr (Option Json) × Effects :=
  let headers := if truthyStr api_key then [("api_key", api_key.getD "")] else []
  returnNone (fetch_from_petstore "DELETE" ("/pet/" ++ toString pet_id) none none (some headers) w)

/-- The parameter names of `fetch_from_petstore` (src/main.py line 13).
Python raises `TypeError` when a call passes a keyword argument that is
not among the callee's parameters. -/
def fetchParamNames : List String := ["method", "path", "params", "json", "headers"]

/-- src/main.py lines 89-96: builds `files` and `data` dicts by truthiness,
then calls `fetch_from_petstore("POST", path, params=data, files=files)`.
`files` is not a parameter of `fetch_from_petstore`, so the call raises
`TypeError` before any HTTP request is issued; the exception is not caught
anywhere in `upload_file` and propagates to the invocation caller. -/
def upload_file (pet_id : Int) (additional_metadata : Option String)
    (file : Option (List Nat)) (w : World) : Except PyErr (Option Json) × Effects :=
  let path := "/pet/" ++ toString pet_id ++ "/uploadImage"
  let files := match file with
    | none => []
    | some f => if f = [] then [] else [(("file" : String), f)]
  let data := if truthyStr additional_metadata
    then [("additionalMetadata", additional_metadata.getD "")] else []
  if "files" ∈ fetchParamNames then
    -- unreachable: the helper has no `files` parameter, so the multipart
    -- payload built above can never be handed to it
    fetch_from_petstore "POST" path (some data) none none w
  else
    (.error (.typeError
      "fetch_from_petstore got an unexpected keyword argument files"), ⟨[], []⟩)

/-- src/main.py lines 99-104. -/
def get_inventory (w : World) : Except PyErr (Option Json) × Effects :=
  fetch_from_petstore "GET" "/store/inventory" none none none w

/-- src/main.py lines 107-112. -/
def place_order (body : Json) (w : World) : Except PyErr (Option Json) × Effects :=
  fetch_from_petstore "POST" "/store/order" none (some body) none w

/-- src/main.py lines 115-120. -/
def get_order_by_id (order_id : Int) (w : World) : Except PyErr (Option Json) × Effects :=
  fetch_from_petstore "GET" ("/store/order/" ++ toString order_id) none none none w

/-- src/main.py lines 123-128. -/
def delete_order (order_id : Int) (w : World) : Except PyErr (Option Json) × Effects :=
  returnNone (fetch_from_petstore "DELETE" ("/store/order/" ++ toString order_id) none none none w)

/-- src/main.py lines 131-136. -/
def create_user (body : Json) (w : World) : Except PyErr (Option Json) × Effects :=
  returnNone (fetch_from_petstore "POST" "/user" none (some body) none w)

/-- src/main.py lines 139-144. -/
def create_users_with_array_input (body : List Json) (w : World) :
    Except PyErr (Option Json) × Effects :=
  returnNone (fetch_from_petstore "POST" "/user/createWithArray" none (some (.arr body)) none w)

/-- src/main.py lines 147-152. -/
def create_users_with_list_input (body : List Json) (w : World) :
    Except PyErr (Option Json) × Effects :=
  returnNone (fetch_from_petstore "POST" "/user/createWithList" none (some (.arr body)) none w)

/-- src/main.py lines 155-161. -/
def login_user (username password : String) (w : World) :
    Except PyErr (Option Json) × Effects :=
  fetch_from_petstore "GET" "/user/login"
    (some [("username", username), ("password", password)]) none none w

/-- src/main.py lines 164-169. -/
def logout_user (w : World) : Except PyErr (Option Json) × Effects :=
  returnNone (fetch_from_petstore "GET" "/user/logout" none none none w)

/-- src/main.py lines 172-177. -/
def get_user_by_name (username : String) (w : World) :
    Except PyErr (Option Json) × Effects :=
  fetch_from_petstore "GET" ("/user/" ++ username) none none none w

/-- src/main.py lines 180-185. -/
def update_user (username : String) (body : Json) (w : World) :
    Except PyErr (Option Json) × Effects :=
  returnNone (fetch_from_petstore "PUT" ("/user/" ++ username) none (some body) none w)

/-- src/main.py lines 188-193. -/
def delete_user (username : String) (w : World) :
    Except PyErr (Option Json) × Effects :=
  returnNone (fetch_from_petstore "DELETE" ("/user/" ++ username) none none none w)

/-- One invocation of a named tool of the registry, with its arguments.
The twenty constructors are exactly the twenty `@mcp.tool()` procedures of
src/main.py. -/
inductive ToolCall where
  | add_pet (body : Json) : ToolCall
  | update_pet (body : Json) : ToolCall
  | find_pets_by_status (status : List String) : ToolCall
  | find_pets_by_tags (tags : List String) : ToolCall
  | get_pet_by_id (pet_id : Int) : ToolCall
  | update_pet_with_form (pet_id : Int) (name status : Option String) : ToolCall
  | delete_pet (pet_id : Int) (api_key : Option String) : ToolCall
  | upload_file (pet_id : Int) (additional_metadata : Option String)
      (file : Option (List Nat)) : ToolCall
  | get_inventory : ToolCall
  | place_order (body : Json) : ToolCall
  | get_order_by_id (order_id : Int) : ToolCall
  | delete_order (order_id : Int) : ToolCall
  | create_user (body : Json) : ToolCall
  | create_users_with_array_input (body : List Json) : ToolCall
  | create_users_with_list_input (body : List Json) : ToolCall
  | login_user (username password : String) : ToolCall
  | logout_user : ToolCall
  | get_user_by_name (username : String) : ToolCall
  | update_user (username : String) (body : Json) : ToolCall
  | delete_user (username : String) : ToolCall

/-- Registry dispatch: run one tool invocation against the world. -/
def invoke : ToolCall → World → Except PyErr (Option Json) × Effects
  | .add_pet body => add_pet body
  | .update_pet body => update_pet body
  | .find_pets_by_status status => find_pets_by_status status
  | .find_pets_by_tags tags => find_pets_by_tags tags
  | .get_pet_by_id pet_id => get_pet_by_id pet_id
  | .update_pet_with_form pet_id name status => update_pet_with_form pet_id name status
  | .delete_pet pet_id api_key => delete_pet pet_id api_key
  | .upload_file pet_id meta file => upload_file pet_id meta file
  | .get_inventory => get_inventory
  | .place_order body => place_order body
  | .get_order_by_id order_id => get_order_by_id order_id
  | .delete_order order_id => delete_order order_id
  | .create_user body => create_user body
  | .create_users_with_array_input body => create_users_with_array_input body
  | .create_users_with_list_input body => create_users_with_list_input body
  | .login_user username password => login_user username password
  | .logout_user => logout_user
  | .get_user_by_name username => get_user_by_name username
  | .update_user username body => update_user username body
  | .delete_user username => delete_user username

/-- Whether an outcome is one the except-clause of `fetch_from_petstore`
treats as a failure: a transport error, a timeout, or a completed response
whose status is not 2xx (for which `raise_for_status()` raises). -/
def isFailureOutcome : HttpOutcome → Bool
  | .transportError _ => true
  | .timeout _ => true
  | .response status _ => decide (status < 200 ∨ 300 ≤ status)

/-- The error detail rendered into the printed diagnostic
`HTTP request failed: ...` for a failure outcome of a request to `url`. -/
def failureDetailMsg (url : String) : HttpOutcome → String
  | .transportError detail => detail
  | .timeout detail => detail
  | .response status _ => statusErrorMsg status url

/-- The method, URL, query parameters and JSON body of a request — the
columns of the procedure table of spec section 4.2. -/
def requestLine (r : Request) : String × String × List (String × String) × Option Json :=
  (r.method, r.url, r.params, r.jsonBody)

/-- A remote service that always answers 200 with JSON `null`. -/
def okWorld : World := fun _ => .response 200 (.json .null)

/-- A remote service that always fails at the transport level. -/
def connRefusedWorld : World := fun _ => .transportError "Connection refused"

/-- A remote service on which every request exceeds its timeout. -/
def timeoutWorld : World := fun _ => .timeout "ReadTimeout"

/-- A remote service that always answers 204 with an empty body (empty
text is not valid JSON, so any attempt to parse it would fail). -/
def noContentWorld : World := fun _ => .response 204 (.text "")

/-- A remote service that answers 200 with the bare (non-JSON) text body
`abc123`, the login stub of the spec's testable property. -/
def bareTokenWorld : World := fun _ => .response 200 (.text "abc123")

/-- A remote service that answers 200 with the JSON string body
`"abc123"`. -/
def jsonTokenWorld : World := fun _ => .response 200 (.json (.str "abc123"))

/-- A remote service that times out on DELETE requests and answers 200
with JSON `null` on everything else. -/
def deleteTimeoutWorld : World := fun r =>
  if r.method = "DELETE" then .timeout "ReadTimeout" else .response 200 (.json .null)

lemma mem_fetch_requests {method path : String} {params : Option (List (String × String))}
    {json : Option Json} {headers : Option (List (String × String))} {w : World} {r : Request}
    (hr : r ∈ (fetch_from_petstore method path params json headers w).2.requests) :
    r = builtRequest method path params json headers :=
  List.mem_singleton.mp hr

lemma fetchStep_fail (req : Request) (o : HttpOutcome) (h : isFailureOutcome o = true) :
    fetchStep req o = (.ok none, ["HTTP request failed: " ++ failureDetailMsg req.url o]) := by
  cases o with
  | transportError detail => rfl
  | timeout detail => rfl
  | response status body =>
    have hs : status < 200 ∨ 300 ≤ status := of_decide_eq_true h
    simp only [fetchStep, failureDetailMsg, if_pos hs]

lemma fetchStep_204 (req : Request) (b : Body) :
    fetchStep req (.response 204 b) = (.ok none, []) := rfl

lemma fetchStep_timeout (req : Request) (d : String) :
    fetchStep req (.timeout d) = (.ok none, ["HTTP request failed: " ++ d]) := rfl

lemma fetch_fail (method path : String) (params : Option (List (String × String)))
    (json : Option Json) (headers : Option (List (String × String))) (w : World) (r : Request)
    (hr : r ∈ (fetch_from_petstore method path params json headers w).2.requests)
    (hf : isFailureOutcome (w r) = true) :
    (fetch_from_petstore method path params json headers w).1 = .ok none ∧
    (fetch_from_petstore method path params json headers w).2.logs =
      ["HTTP request failed: " ++ failureDetailMsg r.url (w r)] := by
  have he := mem_fetch_requests hr
  subst he
  constructor
  · show (fetchStep (builtRequest method path params json headers)
      (w (builtRequest method path params json headers))).1 = .ok none
    rw [fetchStep_fail _ _ hf]
  · show (fetchStep (builtRequest method path params json headers)
      (w (builtRequest method path params json headers))).2 = _
    rw [fetchStep_fail _ _ hf]

lemma returnNone_fail (method path : String) (params : Option (List (String × String)))
    (json : Option Json) (headers : Option (List (String × String))) (w : World) (r : Request)
    (hr : r ∈ (returnNone (fetch_from_petstore method path params json headers w)).2.requests)
    (hf : isFailureOutcome (w r) = true) :
    (returnNone (fetch_from_petstore method path params json headers w)).1 = .ok none ∧
    (returnNone (fetch_from_petstore method path params json headers w)).2.logs =
      ["HTTP request failed: " ++ failureDetailMsg r.url (w r)] := by
  have h := fetch_fail method path params json headers w r hr hf
  constructor
  · show ((fetch_from_petstore method path params json headers w).1).map
      (fun _ => (none : Option Json)) = .ok none
    rw [h.1]
    rfl
  · exact h.2

lemma fetch_204 (method path : String) (params : Option (List (String × String)))
    (json : Option Json) (headers : Option (List (String × String))) (w : World) (r : Request)
    (b : Body) (hr : r ∈ (fetch_from_petstore method path params json headers w).2.requests)
    (h : w r = .response 204 b) :
    (fetch_from_petstore method path params json headers w).1 = .ok none := by
  have he := mem_fetch_requests hr
  subst he
  show (fetchStep (builtRequest method path params json headers)
    (w (builtRequest method path params json headers))).1 = .ok none
  rw [h, fetchStep_204]

lemma returnNone_204 (method path : String) (params : Option (List (String × String)))
    (json : Option Json) (headers : Option (List (String × String))) (w : World) (r : Request)
    (b : Body) (hr : r ∈ (returnNone (fetch_from_petstore method path params json headers w)).2.requests)
    (h : w r = .response 204 b) :
    (returnNone (fetch_from_petstore method path params json headers w)).1 = .ok none := by
  have h1 := fetch_204 method path params json headers w r b hr h
  show ((fetch_from_petstore method path params json headers w).1).map
    (fun _ => (none : Option Json)) = .ok none
  rw [h1]
  rfl

lemma fetch_timeout30 (method path : String) (params : Option (List (String × String)))
    (json : Option Json) (headers : Option (List (String × String))) (w : World) (r : Request)
    (hr : r ∈ (fetch_from_petstore method path params json headers w).2.requests) :
    r.timeout = 30 ∧ ∀ d, w r = .timeout d →
      (fetch_from_petstore method path params json headers w).1 = .ok none := by
  have he := mem_fetch_requests hr
  subst he
  refine ⟨rfl, fun d hd => ?_⟩
  show (fetchStep (builtRequest method path params json headers)
    (w (builtRequest method path params json headers))).1 = .ok none
  rw [hd, fetchStep_timeout]

lemma returnNone_timeout30 (method path : String) (params : Option (List (String × String)))
    (json : Option Json) (headers : Option (List (String × String))) (w : World) (r : Request)
    (hr : r ∈ (returnNone (fetch_from_petstore method path params json headers w)).2.requests) :
    r.timeout = 30 ∧ ∀ d, w r = .timeout d →
      (returnNone (fetch_from_petstore method path params json headers w)).1 = .ok none := by
  have h := fetch_timeout30 method path params json headers w r hr
  refine ⟨h.1, fun d hd => ?_⟩
  show ((fetch_from_petstore method path params json headers w).1).map
    (fun _ => (none : Option Json)) = .ok none
  rw [h.2 d hd]
  rfl

lemma fetch_cong (method path : String) (params : Option (List (String × String)))
    (json : Option Json) (headers : Option (List (String × String))) (w w' : World)
    (h : w (builtRequest method path params json headers)
       = w' (builtRequest method path params json headers)) :
    fetch_from_petstore method path params json headers w
      = fetch_from_petstore method path params json headers w' := by
  unfold fetch_from_petstore
  rw [h]

lemma invoke_upload_eq (pet_id : Int) (additional_metadata : Option String)
    (file : Option (List Nat)) (w : World) :
    invoke (.upload_file pet_id additional_metadata file) w =
      (.error (.typeError "fetch_from_petstore got an unexpected keyword argument files"),
       ⟨[], []⟩) := rfl

/-- C4: for every procedure, an HTTP response with status 204 makes the
invocation return null/absence, whatever the body is — no parse of the
body is attempted. -/
theorem status_204_returns_null : ∀ (c : ToolCall) (w : World) (r : Request) (b : Body),
    r ∈ (invoke c w).2.requests → w r = .response 204 b →
    (invoke c w).1 = Except.ok none := by
  intro c w r b hr h
  cases c <;>
    first
      | exact fetch_204 _ _ _ _ _ _ _ _ hr h
      | exact returnNone_204 _ _ _ _ _ _ _ _ hr h
      | exact absurd hr (List.not_mem_nil r)

/-- Witness for C4: `place_order` against a service answering 204 with an
empty (non-JSON) body returns null. -/
theorem status_204_witness :
    (invoke (.place_order (.obj [])) noContentWorld).1 = Except.ok none :=
  status_204_returns_null (.place_order (.obj [])) noContentWorld
    (builtRequest "POST" "/store/order" none (some (.obj [])) none) (.text "")
    (List.mem_singleton.mpr rfl) rfl

/-- C1: for every procedure, a transport error, timeout, or non-2xx HTTP
status on its issued HTTP request makes the invocation return null (no
error value, no propagated exception) and print one diagnostic line
carrying the error detail. -/
theorem translator_failure_returns_null_with_diagnostic :
    ∀ (c : ToolCall) (w : World) (r : Request),
    r ∈ (invoke c w).2.requests → isFailureOutcome (w r) = true →
    (invoke c w).1 = Except.ok none ∧
    (invoke c w).2.logs = ["HTTP request failed: " ++ failureDetailMsg r.url (w r)] := by
  intro c w r hr hf
  cases c <;>
    first
      | exact fetch_fail _ _ _ _ _ _ _ hr hf
      | exact returnNone_fail _ _ _ _ _ _ _ hr hf
      | exact absurd hr (List.not_mem_nil r)

/-- Witness for C1: `get_pet_by_id` against a connection-refused transport
returns null and prints the diagnostic with the error detail. -/
theorem translator_failure_witness :
    (invoke (.get_pet_by_id 7) connRefusedWorld).1 = Except.ok none ∧
    (invoke (.get_pet_by_id 7) connRefusedWorld).2.logs =
      ["HTTP request failed: Connection refused"] :=
  translator_failure_returns_null_with_diagnostic (.get_pet_by_id 7) connRefusedWorld
    (builtRequest "GET" ("/pet/" ++ toString (7 : Int)) none none none)
    (List.mem_singleton.mpr rfl) rfl

/-- C8: every HTTP request a procedure issues carries the fixed timeout
ceiling 30, and a timeout outcome on that request makes the invocation
return null like any other transport failure. -/
theorem requests_carry_timeout_30 : ∀ (c : ToolCall) (w : World) (r : Request),
    r ∈ (invoke c w).2.requests →
    r.timeout = 30 ∧ ∀ d, w r = .timeout d → (invoke c w).1 = Except.ok none := by
  intro c w r hr
  cases c <;>
    first
      | exact fetch_timeout30 _ _ _ _ _ _ _ hr
      | exact returnNone_timeout30 _ _ _ _ _ _ _ hr
      | exact absurd hr (List.not_mem_nil r)

/-- Witness for C8: `get_inventory`'s request has timeout 30, and against
a service on which the request times out the invocation returns null. -/
theorem requests_carry_timeout_30_witness :
    (builtRequest "GET" "/store/inventory" none none none).timeout = 30 ∧
    (invoke .get_inventory timeoutWorld).1 = Except.ok none :=
  ⟨(requests_carry_timeout_30 .get_inventory timeoutWorld
      (builtRequest "GET" "/store/inventory" none none none)
      (List.mem_singleton.mpr rfl)).1,
   (requests_carry_timeout_30 .get_inventory timeoutWorld
      (builtRequest "GET" "/store/inventory" none none none)
      (List.mem_singleton.mpr rfl)).2 "ReadTimeout" rfl⟩

/-- C9: invocations do not interfere — the whole observable behaviour of
one invocation (result, issued requests, diagnostics) is a function only
of its own arguments and of the service's response to its own request:
two worlds that agree on the invocation's own requests give identical
behaviour, whatever they do elsewhere. -/
theorem invocation_noninterference : ∀ (c : ToolCall) (w w' : World),
    (∀ r ∈ (invoke c w).2.requests, w r = w' r) → invoke c w = invoke c w' := by
  intro c w w' h
  cases c <;>
    first
      | exact fetch_cong _ _ _ _ _ _ _ (h _ (List.mem_singleton.mpr rfl))
      | exact congrArg returnNone (fetch_cong _ _ _ _ _ _ _ (h _ (List.mem_singleton.mpr rfl)))
      | exact (invoke_upload_eq _ _ _ _).trans (invoke_upload_eq _ _ _ _).symm

/-- Witness for C9: `get_inventory` behaves identically under a service
that always answers 200 and one that times out all DELETE requests, since
its own request is a GET. -/
theorem invocation_noninterference_witness :
    invoke .get_inventory okWorld = invoke .get_inventory deleteTimeoutWorld :=
  invocation_noninterference .get_inventory okWorld deleteTimeoutWorld
    (fun r hr => by
      have he : r = builtRequest "GET" "/store/inventory" none none none :=
        List.mem_singleton.mp hr
      subst he
      rfl)

/-- C2: contrary to the claim, `upload_file` never performs its POST.  The
call site passes the keyword argument `files` to `fetch_from_petstore`,
which has no such parameter, so every invocation — whatever the pet id,
metadata, file value, or remote service — raises a TypeError before any
HTTP request is issued, and the exception propagates to the caller instead
of an upload result or null being returned. -/
theorem upload_file_raises_type_error :
    ∀ (pet_id : Int) (additional_metadata : Option String) (file : Option (List Nat))
      (w : World),
    invoke (.upload_file pet_id additional_metadata file) w =
      (.error (.typeError "fetch_from_petstore got an unexpected keyword argument files"),
       ⟨[], []⟩) :=
  fun pet_id additional_metadata file w => invoke_upload_eq pet_id additional_metadata file w

/-- C3: the request table of spec section 4.2 — method, URL, query
parameters and JSON body — holds for nineteen of the twenty procedures,
each issuing exactly one request (in particular the status and tags lists
are comma-joined); but `upload_file` issues zero HTTP requests (its broken
call raises TypeError first), so the claim quantified over every procedure
fails. -/
theorem request_table_and_upload_file_divergence :
    (∀ (b : Json) (w : World), (invoke (.add_pet b) w).2.requests.map requestLine =
      [("POST", PETSTORE_API_BASE ++ "/pet", [], some b)])
    ∧ (∀ (b : Json) (w : World), (invoke (.update_pet b) w).2.requests.map requestLine =
      [("PUT", PETSTORE_API_BASE ++ "/pet", [], some b)])
    ∧ (∀ (status : List String) (w : World),
      (invoke (.find_pets_by_status status) w).2.requests.map requestLine =
      [("GET", PETSTORE_API_BASE ++ "/pet/findByStatus",
        [("status", String.intercalate "," status)], none)])
    ∧ (∀ (tags : List String) (w : World),
      (invoke (.find_pets_by_tags tags) w).2.requests.map requestLine =
      [("GET", PETSTORE_API_BASE ++ "/pet/findByTags",
        [("tags", String.intercalate "," tags)], none)])
    ∧ (∀ (pet_id : Int) (w : World),
      (invoke (.get_pet_by_id pet_id) w).2.requests.map requestLine =
      [("GET", PETSTORE_API_BASE ++ ("/pet/" ++ toString pet_id), [], none)])
    ∧ (∀ (pet_id : Int) (name status : Option String) (w : World),
      (invoke (.update_pet_with_form pet_id name status) w).2.requests.map requestLine =
      [("POST", PETSTORE_API_BASE ++ ("/pet/" ++ toString pet_id),
        formData name status, none)])
    ∧ (∀ (pet_id : Int) (api_key : Option String) (w : World),
      (invoke (.delete_pet pet_id api_key) w).2.requests.map requestLine =
      [("DELETE", PETSTORE_API_BASE ++ ("/pet/" ++ toString pet_id), [], none)])
    ∧ (∀ (w : World), (invoke .get_inventory w).2.requests.map requestLine =
      [("GET", PETSTORE_API_BASE ++ "/store/inventory", [], none)])
    ∧ (∀ (b : Json) (w : World), (invoke (.place_order b) w).2.requests.map requestLine =
      [("POST", PETSTORE_API_BASE ++ "/store/order", [], some b)])
    ∧ (∀ (order_id : Int) (w : World),
      (invoke (.get_order_by_id order_id) w).2.requests.map requestLine =
      [("GET", PETSTORE_API_BASE ++ ("/store/order/" ++ toString order_id), [], none)])
    ∧ (∀ (order_id : Int) (w : World),
      (invoke (.delete_order order_id) w).2.requests.map requestLine =
      [("DELETE", PETSTORE_API_BASE ++ ("/store/order/" ++ toString order_id), [], none)])
    ∧ (∀ (b : Json) (w : World), (invoke (.create_user b) w).2.requests.map requestLine =
      [("POST", PETSTORE_API_BASE ++ "/user", [], some b)])
    ∧ (∀ (b : List Json) (w : World),
      (invoke (.create_users_with_array_input b) w).2.requests.map requestLine =
      [("POST", PETSTORE_API_BASE ++ "/user/createWithArray", [], some (.arr b))])
    ∧ (∀ (b : List Json) (w : World),
      (invoke (.create_users_with_list_input b) w).2.requests.map requestLine =
      [("POST", PETSTORE_API_BASE ++ "/user/createWithList", [], some (.arr b))])
    ∧ (∀ (username password : String) (w : World),
      (invoke (.login_user username password) w).2.requests.map requestLine =
      [("GET", PETSTORE_API_BASE ++ "/user/login",
        [("username", username), ("password", password)], none)])
    ∧ (∀ (w : World), (invoke .logout_user w).2.requests.map requestLine =
      [("GET", PETSTORE_API_BASE ++ "/user/logout", [], none)])
    ∧ (∀ (username : String) (w : World),
      (invoke (.get_user_by_name username) w).2.requests.map requestLine =
      [("GET", PETSTORE_API_BASE ++ ("/user/" ++ username), [], none)])
    ∧ (∀ (username : String) (b : Json) (w : World),
      (invoke (.update_user username b) w).2.requests.map requestLine =
      [("PUT", PETSTORE_API_BASE ++ ("/user/" ++ username), [], some b)])
    ∧ (∀ (username : String) (w : World),
      (invoke (.delete_user username) w).2.requests.map requestLine =
      [("DELETE", PETSTORE_API_BASE ++ ("/user/" ++ username), [], none)])
    ∧ (∀ (pet_id : Int) (additional_metadata : Option String) (file : Option (List Nat))
        (w : World),
      (invoke (.upload_file pet_id additional_metadata file) w).2.requests = []) :=
  ⟨fun _ _ => rfl, fun _ _ => rfl, fun _ _ => rfl, fun _ _ => rfl, fun _ _ => rfl,
   fun _ _ _ _ => rfl, fun _ _ _ => rfl, fun _ => rfl, fun _ _ => rfl, fun _ _ => rfl,
   fun _ _ => rfl, fun _ _ => rfl, fun _ _ => rfl, fun _ _ => rfl, fun _ _ _ => rfl,
   fun _ => rfl, fun _ _ => rfl, fun _ _ _ => rfl, fun _ _ => rfl, fun _ _ _ _ => rfl⟩

/-- C5: `login_user("alice","secret")` does issue one GET to /user/login
with username and password as query parameters, but against a stub whose
200 body is the bare (non-JSON) text token `abc123` it does not return the
token: `response.json()` raises a JSON decode error, which is not an
`httpx.HTTPError` and so propagates to the caller.  Only when the body is
the JSON string `"abc123"` does the call return the token. -/
theorem login_user_bare_text_raises_decode_error :
    invoke (.login_user "alice" "secret") bareTokenWorld =
      (.error (.jsonDecodeError ("Expecting value: " ++ "abc123")),
       ⟨[⟨"GET", PETSTORE_API_BASE ++ "/user/login",
          [("username", "alice"), ("password", "secret")], none, defaultHeaders, 30⟩],
        []⟩)
    ∧ (invoke (.login_user "alice" "secret") jsonTokenWorld).1 =
      Except.ok (some (.str "abc123")) :=
  ⟨rfl, rfl⟩

/-- Counterexample to C6 as stated: invoked with the api_key argument `""`
(an argument, but falsy in Python), `delete_pet` sends no `api_key`
header — its single request carries only the substituted default headers,
in which `api_key` does not occur. -/
theorem delete_pet_empty_api_key_no_header :
    (invoke (.delete_pet 1 (some "")) okWorld).2.requests.map
      (fun r => List.lookup "api_key" r.headers) = [none] := rfl

/-- C6 amended: when `delete_pet` is invoked with a non-empty `api_key`
argument, its DELETE request to /pet/petId carries exactly the single
header `api_key` with that value; when `api_key` is omitted (or empty),
no `api_key` header is sent. -/
theorem delete_pet_api_key_header_iff_nonempty :
    ∀ (pet_id : Int) (key : String) (w w' : World), key ≠ "" →
    (invoke (.delete_pet pet_id (some key)) w).2.requests =
      [⟨"DELETE", PETSTORE_API_BASE ++ ("/pet/" ++ toString pet_id), [], none,
        [("api_key", key)], 30⟩]
    ∧ (invoke (.delete_pet pet_id none) w').2.requests.map
      (fun r => List.lookup "api_key" r.headers) = [none] := by
  intro pet_id key w w' hk
  have ht : truthyStr (some key) = true := by
    simp [truthyStr, hk]
  constructor
  · show (returnNone (fetch_from_petstore "DELETE" ("/pet/" ++ toString pet_id) none none
      (some (if truthyStr (some key) then [("api_key", (some key).getD "")] else [])) w)
      ).2.requests = _
    rw [ht]
    rfl
  · rfl

/-- Witness for C6 amended: concrete non-empty key `k` yields exactly the
`api_key` header; omitted key yields none. -/
theorem delete_pet_api_key_header_witness :
    (invoke (.delete_pet 1 (some "k")) okWorld).2.requests =
      [⟨"DELETE", PETSTORE_API_BASE ++ ("/pet/" ++ toString (1 : Int)), [], none,
        [("api_key", "k")], 30⟩]
    ∧ (invoke (.delete_pet 1 none) okWorld).2.requests.map
      (fun r => List.lookup "api_key" r.headers) = [none] :=
  delete_pet_api_key_header_iff_nonempty 1 "k" okWorld okWorld (by decide)

/-- C7: `update_pet_with_form` issues a single POST to /pet/petId whose
query parameters are exactly the entries among `name` and `status` whose
argument was supplied, each with the supplied value, omitting each one
that was not supplied. -/
theorem update_pet_with_form_exact_params :
    ∀ (pet_id : Int) (name status : Option String) (w : World),
    (invoke (.update_pet_with_form pet_id name status) w).2.requests =
      [⟨"POST", PETSTORE_API_BASE ++ ("/pet/" ++ toString pet_id),
        formData name status, none, defaultHeaders, 30⟩]
    ∧ List.lookup "name" (formData name status) = name
    ∧ List.lookup "status" (formData name status) = status := by
  intro pet_id name status w
  refine ⟨rfl, ?_, ?_⟩ <;> cases name <;> cases status <;> rfl

/-- C10: the translator substitutes the default headers (identifying
User-Agent and JSON Content-Type) whenever the supplied headers mapping is
empty, exactly as when it is absent; in particular `delete_pet` without an
api_key passes an empty mapping and its DELETE request carries the default
headers. -/
theorem empty_headers_replaced_by_defaults : ∀ (pet_id : Int) (w : World),
    effectiveHeaders (some []) = defaultHeaders
    ∧ effectiveHeaders none = defaultHeaders
    ∧ ("User-Agent", USER_AGENT) ∈ defaultHeaders
    ∧ ("Content-Type", "application/json") ∈ defaultHeaders
    ∧ (invoke (.delete_pet pet_id none) w).2.requests =
      [⟨"DELETE", PETSTORE_API_BASE ++ ("/pet/" ++ toString pet_id), [], none,
        defaultHeaders, 30⟩] :=
  fun pet_id w =>
    ⟨rfl, rfl, List.Mem.head _, List.Mem.tail _ (List.Mem.head _), rfl⟩
